import Mathlib

/-!
Verification of the data-model and credential layer of the Success World
repository (`src/models.py`).

The file shallowly embeds the SQLAlchemy models as Lean structures, the
SQLAlchemy session/commit discipline as explicit state passing, and the
flask-bcrypt hashing interface as a concrete salt-embedding hash function.
Rows of each table are lists; uniqueness constraints and cascading deletes
are modelled as the checks and row removals the declared schema performs.
-/

namespace SuccessWorld

/-- Model of `flask_bcrypt.Bcrypt`.  A bcrypt digest is a string that embeds
the per-call salt together with a one-way digest of the plaintext, in a
recognizable format (real bcrypt output always starts with a `$2b$`-style
prefix and embeds its salt so verification can re-run the hash).  The salt,
chosen fresh per call by the library, is an explicit `Nat` parameter here. -/
def bcryptDigest (salt : Nat) (pw : List Char) : Nat :=
  pw.foldl (fun a c => (a * 131 + c.toNat + 1) % 97) (salt % 97)

/-- The character content of a bcrypt hash: a `$2b$` prefix, the salt in
unary, the password length in unary and the digest in unary, separated by
`$`.  The exact encoding is a model; what matters is that the salt is
recoverable, the whole is determined by (salt, password), and the output is
never equal to the plaintext (real bcrypt output has a fixed recognizable
format distinct from the input password). -/
def hashChars (salt : Nat) (pw : List Char) : List Char :=
  '$' :: '2' :: 'b' :: '$' ::
    (List.replicate salt 'x' ++ '$' ::
      (List.replicate pw.length 'y' ++ '$' ::
        List.replicate (bcryptDigest salt pw + 1) 'z'))

/-- `bcrypt.generate_password_hash(password)` followed by `.decode('UTF-8')`
(src/models.py line 60): produce the salted hash string. -/
def generate_password_hash (salt : Nat) (password : String) : String :=
  String.mk (hashChars salt password.data)

/-- Count the leading `x` characters: recovers the unary-encoded salt. -/
def countLeadingX : List Char → Nat
  | [] => 0
  | c :: rest => if c = 'x' then countLeadingX rest + 1 else 0

/-- Recover the salt from a stored bcrypt hash, if the string has the
bcrypt format; `none` on any other string. -/
def decodeSalt (l : List Char) : Option Nat :=
  match l with
  | a :: b :: c :: d :: rest =>
      if a = '$' ∧ b = '2' ∧ c = 'b' ∧ d = '$' then some (countLeadingX rest)
      else none
  | _ => none

/-- `bcrypt.check_password_hash(pw_hash, password)` (src/models.py line 88):
extract the salt embedded in the stored hash, re-hash the candidate
plaintext with it, and compare the results. -/
def check_password_hash (pw_hash password : String) : Bool :=
  match decodeSalt pw_hash.data with
  | some salt => if pw_hash = generate_password_hash salt password then true else false
  | none => false

/-- A row of the `users` table (src/models.py lines 9-49).  `id` is the
auto-assigned primary key, `none` before the row is flushed.  `image_url`
is the only nullable column; its database-side default
(`/static/images/default-pic.png`) applies only when the attribute was
never set, which `signup` always does. -/
structure User where
  id : Option Nat
  username : String
  email : String
  password : String
  first_name : String
  last_name : String
  image_url : Option String
deriving DecidableEq

/-- A row of the `courses` table (src/models.py lines 95-131). -/
structure Course where
  id : Option Nat
  title : String
  description : Option String
  creator_id : Nat
deriving DecidableEq

/-- A row of the `videos` table (src/models.py lines 134-172). -/
structure Video where
  id : Option Nat
  title : String
  description : Option String
  yt_video_id : String
  yt_channel_id : String
  yt_channel_title : Option String
  thumb_url : Option String
deriving DecidableEq

/-- A row of the `videos_courses` join table (src/models.py lines 175-201).
`course_id` and `video_id` carry no `nullable=False` in the source, hence
`Option`. -/
structure VideoCourse where
  id : Option Nat
  course_id : Option Nat
  video_id : Option Nat
  video_seq : Int
deriving DecidableEq

/-- The committed state of the database: the rows of the four tables. -/
structure DB where
  users : List User
  courses : List Course
  videos : List Video
  videos_courses : List VideoCourse
deriving DecidableEq

/-- A SQLAlchemy session: the committed database plus the objects staged by
`db.session.add` and not yet flushed. -/
structure Session where
  db : DB
  newUsers : List User
deriving DecidableEq

/-- `db.session.add(user)` (src/models.py line 71): stage a user object on
the session without touching the committed store. -/
def sessionAdd (s : Session) (u : User) : Session :=
  { s with newUsers := s.newUsers ++ [u] }

/-- `User.signup` (src/models.py lines 55-72): hash the password, build the
user object with the hash in place of the plaintext and every other field
as given, stage it on the session and return it.  `salt` is the fresh salt
bcrypt draws internally on this call. -/
def User.signup (salt : Nat) (email username password first_name last_name : String)
    (image_url : Option String) (s : Session) : User × Session :=
  let hashed_pw := generate_password_hash salt password
  let user : User :=
    { id := none
      username := username
      password := hashed_pw
      first_name := first_name
      last_name := last_name
      image_url := image_url
      email := email }
  (user, sessionAdd s user)

/-- `cls.query.filter_by(username=username).first()` (src/models.py
line 85): the first row of `users` whose `username` column matches, if
any. -/
def firstByUsername (users : List User) (username : String) : Option User :=
  users.find? (fun u => u.username == username)

/-- `User.authenticate` (src/models.py lines 74-92): look the username up;
on a hit check the password against the stored hash and return the user,
otherwise fall through.  The Python returns `False` on both failure paths;
the single falsy failure value is modelled as `none`. -/
def User.authenticate (db : DB) (username password : String) : Option User :=
  match firstByUsername db.users username with
  | some user => if check_password_hash user.password password then some user else none
  | none => none

/-- True when no two rows of the list collide under `f`: the check the
storage engine runs for a single-column `unique=True` constraint. -/
def nodupBy (f : User → String) : List User → Bool
  | [] => true
  | u :: rest => (!(rest.any fun v => f v == f u)) && nodupBy f rest

/-- `db.session.commit()` for a session whose staged objects are users:
flush the staged rows and enforce the `unique=True` constraints on
`users.username` and `users.email` (src/models.py lines 19-29), failing
with a uniqueness violation when they do not hold. -/
def Session.commit (s : Session) : Except String DB :=
  let allUsers := s.db.users ++ s.newUsers
  if nodupBy (fun u => u.username) allUsers && nodupBy (fun u => u.email) allUsers
  then .ok { s.db with users := allUsers }
  else .error "UNIQUE constraint failed: users"

/-- The collision check of the declared constraint
`db.UniqueConstraint(title, creator_id)` on `courses` (src/models.py
line 120): two rows collide when both the title and the creator match. -/
def courseConflict (a b : Course) : Bool :=
  a.title == b.title && a.creator_id == b.creator_id

/-- Insert a course row, enforcing the `(title, creator_id)` unique
constraint declared on the `courses` table. -/
def insertCourse (db : DB) (c : Course) : Except String DB :=
  if db.courses.any (fun x => courseConflict x c)
  then .error "UNIQUE constraint failed: courses"
  else .ok { db with courses := db.courses ++ [c] }

/-- The collision check of `db.UniqueConstraint(course_id, video_id,
video_seq)` on `videos_courses` (src/models.py line 199).  As in SQL, a
composite unique constraint only fires when every compared column is
non-NULL on both rows. -/
def vcConflictTriple (a b : VideoCourse) : Bool :=
  match a.course_id, b.course_id, a.video_id, b.video_id with
  | some c1, some c2, some v1, some v2 =>
      c1 == c2 && v1 == v2 && a.video_seq == b.video_seq
  | _, _, _, _ => false

/-- The collision check of `db.UniqueConstraint(course_id, video_seq)` on
`videos_courses` (src/models.py line 201). -/
def vcConflictPair (a b : VideoCourse) : Bool :=
  match a.course_id, b.course_id with
  | some c1, some c2 => c1 == c2 && a.video_seq == b.video_seq
  | _, _ => false

/-- A `videos_courses` row collides with another when either declared
unique constraint fires. -/
def vcConflict (a b : VideoCourse) : Bool :=
  vcConflictTriple a b || vcConflictPair a b

/-- Insert a `videos_courses` row, enforcing the two unique constraints
declared on the table. -/
def insertVideoCourse (db : DB) (r : VideoCourse) : Except String DB :=
  if db.videos_courses.any (fun x => vcConflict x r)
  then .error "UNIQUE constraint failed: videos_courses"
  else .ok { db with videos_courses := db.videos_courses ++ [r] }

/-- Delete a course row by id.  The `ondelete="cascade"` foreign key of
`videos_courses.course_id` (src/models.py line 186) removes every link row
of that course. -/
def deleteCourse (db : DB) (cid : Nat) : DB :=
  { db with
    courses := db.courses.filter (fun c => c.id ≠ some cid)
    videos_courses := db.videos_courses.filter (fun vc => vc.course_id ≠ some cid) }

/-- Delete a video row by id.  The `ondelete="cascade"` foreign key of
`videos_courses.video_id` (src/models.py line 191) removes every link row
referencing that video; link rows of other videos stay. -/
def deleteVideo (db : DB) (vid : Nat) : DB :=
  { db with
    videos := db.videos.filter (fun v => v.id ≠ some vid)
    videos_courses := db.videos_courses.filter (fun vc => vc.video_id ≠ some vid) }

/-- Delete a user row by id.  The `ondelete="cascade"` foreign key of
`courses.creator_id` (src/models.py line 116) removes every course created
by that user, and the cascade of each removed course in turn removes its
`videos_courses` link rows. -/
def deleteUser (db : DB) (uid : Nat) : DB :=
  let deadCourses := db.courses.filter (fun c => c.creator_id == uid)
  { db with
    users := db.users.filter (fun u => u.id ≠ some uid)
    courses := db.courses.filter (fun c => c.creator_id ≠ uid)
    videos_courses := db.videos_courses.filter
      (fun vc => !(deadCourses.any fun c => vc.course_id == c.id)) }

/-! ### Lemmas about the bcrypt model -/

theorem countLeadingX_replicate (n : Nat) (l : List Char) :
    countLeadingX (List.replicate n 'x' ++ '$' :: l) = n := by
  induction n with
  | zero => simp [countLeadingX]
  | succ k ih => simpa [countLeadingX] using ih

theorem decodeSalt_hashChars (salt : Nat) (pw : List Char) :
    decodeSalt (hashChars salt pw) = some salt := by
  simp [decodeSalt, hashChars, countLeadingX_replicate]

theorem length_hashChars (salt : Nat) (pw : List Char) :
    (hashChars salt pw).length = pw.length + (salt + bcryptDigest salt pw + 7) := by
  simp [hashChars]
  omega

theorem generate_ne_plaintext (salt : Nat) (pw : String) :
    generate_password_hash salt pw ≠ pw := by
  intro h
  have hd : hashChars salt pw.data = pw.data := congrArg String.data h
  have hl := congrArg List.length hd
  rw [length_hashChars] at hl
  omega

theorem check_generate (salt : Nat) (pw : String) :
    check_password_hash (generate_password_hash salt pw) pw = true := by
  have hdec : decodeSalt (generate_password_hash salt pw).data = some salt := by
    simpa [generate_password_hash] using decodeSalt_hashChars salt pw.data
  simp [check_password_hash, hdec]

theorem generate_inj_salt (salt1 salt2 : Nat) (pw1 pw2 : String)
    (h : salt1 ≠ salt2) :
    generate_password_hash salt1 pw1 ≠ generate_password_hash salt2 pw2 := by
  intro he
  apply h
  have := congrArg (fun s : String => decodeSalt s.data) he
  simpa [generate_password_hash, decodeSalt_hashChars] using this

/-! ### Lemmas about uniqueness checks -/

theorem find_of_nodupBy (f : User → String) (k : String) (l : List User) (a : User)
    (hnd : nodupBy f l = true) (ha : a ∈ l) (hk : f a = k) :
    l.find? (fun u => f u == k) = some a := by
  induction l with
  | nil => cases ha
  | cons h t ih =>
      have hnd' : (!(t.any fun v => f v == f h)) = true ∧ nodupBy f t = true := by
        simpa [nodupBy, Bool.and_eq_true] using hnd
      rcases hnd' with ⟨hany, hndt⟩
      by_cases hhk : f h = k
      · have hae : a = h := by
          rcases List.mem_cons.mp ha with rfl | hat
          · rfl
          · exfalso
            have : t.any (fun v => f v == f h) = true :=
              List.any_eq_true.mpr ⟨a, hat, by simp [hk, hhk]⟩
            simp [this] at hany
        subst hae
        simp [List.find?_cons, hhk]
      · have hat : a ∈ t := by
          rcases List.mem_cons.mp ha with rfl | hat
          · exact absurd hk hhk
          · exact hat
        rw [List.find?_cons]
        have hb : (f h == k) = false := by simp [hhk]
        rw [hb]
        exact ih hndt hat

theorem nodupBy_pairwise (f : User → String) (l : List User)
    (hnd : nodupBy f l = true) :
    List.Pairwise (fun a b => f a ≠ f b) l := by
  induction l with
  | nil => exact List.Pairwise.nil
  | cons h t ih =>
      have hnd' : (!(t.any fun v => f v == f h)) = true ∧ nodupBy f t = true := by
        simpa [nodupBy, Bool.and_eq_true] using hnd
      rcases hnd' with ⟨hany, hndt⟩
      refine List.Pairwise.cons (fun v hv hfv => ?_) (ih hndt)
      have : t.any (fun v => f v == f h) = true :=
        List.any_eq_true.mpr ⟨v, hv, by simp [hfv]⟩
      simp [this] at hany

/-- A successful commit flushes exactly the staged users and certifies the
two single-column uniqueness checks over the flushed table. -/
theorem commit_ok_users (s : Session) (db : DB) (h : s.commit = .ok db) :
    db.users = s.db.users ++ s.newUsers
    ∧ nodupBy (fun u => u.username) (s.db.users ++ s.newUsers) = true
    ∧ nodupBy (fun u => u.email) (s.db.users ++ s.newUsers) = true := by
  unfold Session.commit at h
  dsimp only at h
  split at h
  · rename_i hcond
    rw [Bool.and_eq_true] at hcond
    rcases hcond with ⟨h1, h2⟩
    cases h
    exact ⟨rfl, h1, h2⟩
  · cases h

/-! ### Claim theorems -/

/-- C3: the user object returned by `signup` stores
`bcrypt.generate_password_hash(password)` in its `password` field, a
salted one-way hash, and that stored value is never equal to the original
plaintext password. -/
theorem signup_password_is_salted_hash_not_plaintext
    (salt : Nat) (email username password first_name last_name : String)
    (image_url : Option String) (s : Session) :
    (User.signup salt email username password first_name last_name image_url s).1.password
        = generate_password_hash salt password
    ∧ (User.signup salt email username password first_name last_name image_url s).1.password
        ≠ password :=
  ⟨rfl, generate_ne_plaintext salt password⟩

/-- C7: `signup` stages the new user on the session (`db.session.add`)
but does not commit: the committed store inside the returned session is
exactly the committed store that was passed in, and the new user sits in
the staged list awaiting the caller's commit. -/
theorem signup_stages_without_commit
    (salt : Nat) (email username password first_name last_name : String)
    (image_url : Option String) (s : Session) :
    ((User.signup salt email username password first_name last_name image_url s).2).db = s.db
    ∧ ((User.signup salt email username password first_name last_name image_url s).2).newUsers
        = s.newUsers
            ++ [(User.signup salt email username password first_name last_name image_url s).1] :=
  ⟨rfl, rfl⟩

/-- C9: two `signup` calls for the same plaintext draw distinct fresh
salts, so the two stored hashes differ from each other, yet each one
verifies against the original plaintext via `check_password_hash`. -/
theorem signup_salting_two_runs
    (salt1 salt2 : Nat) (h : salt1 ≠ salt2)
    (email username password first_name last_name : String)
    (image_url : Option String) (s1 s2 : Session) :
    (User.signup salt1 email username password first_name last_name image_url s1).1.password
        ≠ (User.signup salt2 email username password first_name last_name image_url s2).1.password
    ∧ check_password_hash
        (User.signup salt1 email username password first_name last_name image_url s1).1.password
        password = true
    ∧ check_password_hash
        (User.signup salt2 email username password first_name last_name image_url s2).1.password
        password = true :=
  ⟨generate_inj_salt salt1 salt2 password password h,
   check_generate salt1 password,
   check_generate salt2 password⟩

/-- The session of an application whose database is still empty. -/
def emptySession : Session :=
  { db := { users := [], courses := [], videos := [], videos_courses := [] }
    newUsers := [] }

/-- Witness for C9 at two concrete salts and a concrete signup input. -/
theorem signup_salting_two_runs_witness :
    (User.signup 0 "a@b.c" "alice" "pw" "Ann" "Lee" none emptySession).1.password
        ≠ (User.signup 1 "a@b.c" "alice" "pw" "Ann" "Lee" none emptySession).1.password
    ∧ check_password_hash
        (User.signup 0 "a@b.c" "alice" "pw" "Ann" "Lee" none emptySession).1.password
        "pw" = true
    ∧ check_password_hash
        (User.signup 1 "a@b.c" "alice" "pw" "Ann" "Lee" none emptySession).1.password
        "pw" = true :=
  signup_salting_two_runs 0 1 (by decide) "a@b.c" "alice" "pw" "Ann" "Lee" none
    emptySession emptySession

/-- C10: every field of the user object returned by `signup` other than
`password` is the corresponding argument verbatim; in particular an
explicitly supplied `image_url`, including a null one, is stored as given
(the column default never substitutes here because `signup` always sets
the attribute), and `id` is unset until the row is flushed. -/
theorem signup_passthrough_fields
    (salt : Nat) (email username password first_name last_name : String)
    (image_url : Option String) (s : Session) :
    (User.signup salt email username password first_name last_name image_url s).1.username
        = username
    ∧ (User.signup salt email username password first_name last_name image_url s).1.email
        = email
    ∧ (User.signup salt email username password first_name last_name image_url s).1.first_name
        = first_name
    ∧ (User.signup salt email username password first_name last_name image_url s).1.last_name
        = last_name
    ∧ (User.signup salt email username password first_name last_name image_url s).1.image_url
        = image_url
    ∧ (User.signup salt email username password first_name last_name image_url s).1.id
        = none :=
  ⟨rfl, rfl, rfl, rfl, rfl, rfl⟩

/-- C1: a user created via `signup` and persisted by a successful commit is
re-authenticated by a separate `authenticate` call with the same username
and the original plaintext password, which returns that user. -/
theorem signup_then_authenticate_roundtrip
    (salt : Nat) (email username password first_name last_name : String)
    (image_url : Option String) (s : Session) (db : DB)
    (hcommit :
      ((User.signup salt email username password first_name last_name image_url s).2).commit
        = .ok db) :
    User.authenticate db username password
      = some (User.signup salt email username password first_name last_name image_url s).1 := by
  rcases commit_ok_users _ _ hcommit with ⟨hdbu, hnd, -⟩
  have hmem : (User.signup salt email username password first_name last_name image_url s).1
      ∈ ((User.signup salt email username password first_name last_name image_url s).2).db.users
        ++ ((User.signup salt email username password first_name last_name image_url s).2).newUsers := by
    show _ ∈ s.db.users ++ (s.newUsers
      ++ [(User.signup salt email username password first_name last_name image_url s).1])
    exact List.mem_append_right _ (List.mem_append_right _ (List.mem_singleton_self _))
  have hfind : firstByUsername db.users username
      = some (User.signup salt email username password first_name last_name image_url s).1 := by
    rw [firstByUsername, hdbu]
    exact find_of_nodupBy (fun u => u.username) username _ _ hnd hmem rfl
  have hchk : check_password_hash
      (User.signup salt email username password first_name last_name image_url s).1.password
      password = true := check_generate salt password
  unfold User.authenticate
  rw [hfind]
  simp [hchk]

/-- Witness for C1: a concrete signup into an empty database, committed,
then re-authenticated. -/
theorem signup_then_authenticate_roundtrip_witness :
    ((User.signup 0 "a@b.c" "alice" "pw" "Ann" "Lee" none emptySession).2).commit
        = .ok { users := [(User.signup 0 "a@b.c" "alice" "pw" "Ann" "Lee" none emptySession).1]
                courses := [], videos := [], videos_courses := [] }
    ∧ User.authenticate
        { users := [(User.signup 0 "a@b.c" "alice" "pw" "Ann" "Lee" none emptySession).1]
          courses := [], videos := [], videos_courses := [] }
        "alice" "pw"
      = some (User.signup 0 "a@b.c" "alice" "pw" "Ann" "Lee" none emptySession).1 :=
  ⟨rfl,
   signup_then_authenticate_roundtrip 0 "a@b.c" "alice" "pw" "Ann" "Lee" none emptySession
     _ rfl⟩

/-- C2: `authenticate` returns the matching user when the username exists
(usernames being unique, at most one row matches) and the plaintext
verifies against its stored hash; it returns the single falsy failure
value `none` both when no row has the username and when the hash check
fails, so the two failure cases are indistinguishable to the caller. -/
theorem authenticate_success_and_failure (db : DB) (username password : String) :
    (∀ u, u ∈ db.users → u.username = username →
        nodupBy (fun v => v.username) db.users = true →
        check_password_hash u.password password = true →
        User.authenticate db username password = some u)
    ∧ ((∀ u, u ∈ db.users → u.username ≠ username) →
        User.authenticate db username password = none)
    ∧ (∀ u, firstByUsername db.users username = some u →
        check_password_hash u.password password = false →
        User.authenticate db username password = none) := by
  refine ⟨fun u hmem huser hnd hchk => ?_, fun hnone => ?_, fun u hfind hchk => ?_⟩
  · have hfind : firstByUsername db.users username = some u :=
      find_of_nodupBy (fun v => v.username) username _ _ hnd hmem huser
    unfold User.authenticate
    rw [hfind]
    simp [hchk]
  · have hfind : firstByUsername db.users username = none := by
      rw [firstByUsername, List.find?_eq_none]
      intro u hu
      simpa using hnone u hu
    unfold User.authenticate
    rw [hfind]
  · unfold User.authenticate
    rw [hfind]
    simp [hchk]

/-- A concrete user row with a known password hash. -/
def aliceRow : User :=
  { id := some 1, username := "alice", email := "a@b.c"
    password := generate_password_hash 0 "pw"
    first_name := "Ann", last_name := "Lee", image_url := none }

/-- A concrete one-user database for exercising `authenticate`. -/
def dbOneUser : DB :=
  { users := [aliceRow], courses := [], videos := [], videos_courses := [] }

/-- Witness for C2: on a concrete one-user database, the success case, the
unknown-username case and the wrong-password case, the two failures both
yielding the same value. -/
theorem authenticate_success_and_failure_witness :
    User.authenticate dbOneUser "alice" "pw" = some aliceRow
    ∧ User.authenticate dbOneUser "bob" "pw" = none
    ∧ User.authenticate dbOneUser "alice" "wrong" = none :=
  ⟨(authenticate_success_and_failure dbOneUser "alice" "pw").1 aliceRow (by decide) rfl
      (by decide) (by decide),
   (authenticate_success_and_failure dbOneUser "bob" "pw").2.1 (by decide),
   (authenticate_success_and_failure dbOneUser "alice" "wrong").2.2 aliceRow (by decide)
      (by decide)⟩

/-- A passing `nodupBy` check separates any two distinct positions. -/
theorem nodupBy_get_ne (f : User → String) (l : List User)
    (hnd : nodupBy f l = true) (i j : Fin l.length) (hij : i ≠ j) :
    f (l.get i) ≠ f (l.get j) := by
  have hp := nodupBy_pairwise f l hnd
  rw [List.pairwise_iff_get] at hp
  rcases lt_trichotomy i j with h | h | h
  · exact hp i j h
  · exact absurd h hij
  · exact (hp j i h).symm

/-- C6: two staged-or-stored users at distinct positions sharing a
username, or sharing an email, make the commit fail with a uniqueness
violation on the `users` table. -/
theorem users_username_email_unique_at_commit (s : Session)
    (i j : Fin (s.db.users ++ s.newUsers).length) (hij : i ≠ j)
    (hdup : ((s.db.users ++ s.newUsers).get i).username
              = ((s.db.users ++ s.newUsers).get j).username
          ∨ ((s.db.users ++ s.newUsers).get i).email
              = ((s.db.users ++ s.newUsers).get j).email) :
    s.commit = .error "UNIQUE constraint failed: users" := by
  unfold Session.commit
  dsimp only
  split
  · rename_i hcond
    rw [Bool.and_eq_true] at hcond
    exfalso
    rcases hdup with hd | hd
    · exact nodupBy_get_ne _ _ hcond.1 i j hij hd
    · exact nodupBy_get_ne _ _ hcond.2 i j hij hd
  · rfl

/-- A session staging two users that share the username `alice`. -/
def dupSession : Session :=
  { db := { users := [], courses := [], videos := [], videos_courses := [] }
    newUsers := [aliceRow, { aliceRow with email := "c@d.e", id := some 2 }] }

/-- Witness for C6: committing two staged users with the same username
fails. -/
theorem users_username_email_unique_at_commit_witness :
    dupSession.commit = .error "UNIQUE constraint failed: users" :=
  users_username_email_unique_at_commit dupSession ⟨0, by decide⟩ ⟨1, by decide⟩
    (by decide) (Or.inl (by decide))

/-- C4: inserting a `videos_courses` row whose `(course_id, video_seq)`
pair is already taken inside the same course fails with a uniqueness
violation, whatever the two rows' `video_id` columns are. -/
theorem videocourse_course_seq_unique (db : DB) (r1 r2 : VideoCourse) (c : Nat)
    (h1 : r1 ∈ db.videos_courses)
    (hc1 : r1.course_id = some c) (hc2 : r2.course_id = some c)
    (hseq : r1.video_seq = r2.video_seq) :
    insertVideoCourse db r2 = .error "UNIQUE constraint failed: videos_courses" := by
  have hpair : vcConflictPair r1 r2 = true := by
    unfold vcConflictPair
    rw [hc1, hc2]
    simp [hseq]
  have hconf : vcConflict r1 r2 = true := by
    unfold vcConflict
    rw [Bool.or_eq_true]
    exact Or.inr hpair
  have hany : db.videos_courses.any (fun x => vcConflict x r2) = true :=
    List.any_eq_true.mpr ⟨r1, h1, hconf⟩
  unfold insertVideoCourse
  rw [hany]
  rfl

/-- A link row placing video 100 at position 1 of course 10. -/
def vcRowA : VideoCourse :=
  { id := some 1000, course_id := some 10, video_id := some 100, video_seq := 1 }

/-- A link row placing video 200 at position 1 of course 11. -/
def vcRowB : VideoCourse :=
  { id := some 1001, course_id := some 11, video_id := some 200, video_seq := 1 }

/-- A course owned by user 1. -/
def courseA : Course :=
  { id := some 10, title := "T", description := none, creator_id := 1 }

/-- A course owned by user 2. -/
def courseB : Course :=
  { id := some 11, title := "T", description := none, creator_id := 2 }

/-- A concrete database with two users, their courses, one video and one
link row per course. -/
def dbCascade : DB :=
  { users := [aliceRow]
    courses := [courseA, courseB]
    videos := [{ id := some 100, title := "V", description := none
                 yt_video_id := "yt1", yt_channel_id := "ch1"
                 yt_channel_title := none, thumb_url := none }]
    videos_courses := [vcRowA, vcRowB] }

/-- Witness for C4: a second row at position 1 of course 10 with a
different video is rejected. -/
theorem videocourse_course_seq_unique_witness :
    insertVideoCourse dbCascade
        { id := none, course_id := some 10, video_id := some 999, video_seq := 1 }
      = .error "UNIQUE constraint failed: videos_courses" :=
  videocourse_course_seq_unique dbCascade vcRowA
    { id := none, course_id := some 10, video_id := some 999, video_seq := 1 }
    10 (by decide) (by decide) (by decide) (by decide)

/-- C5: inserting a course whose `(title, creator_id)` pair is already
taken by an existing course of the same creator fails with a uniqueness
violation. -/
theorem course_title_creator_unique (db : DB) (c1 c2 : Course)
    (h1 : c1 ∈ db.courses) (ht : c1.title = c2.title)
    (hcr : c1.creator_id = c2.creator_id) :
    insertCourse db c2 = .error "UNIQUE constraint failed: courses" := by
  have hconf : courseConflict c1 c2 = true := by
    simp [courseConflict, ht, hcr]
  have hany : db.courses.any (fun x => courseConflict x c2) = true :=
    List.any_eq_true.mpr ⟨c1, h1, hconf⟩
  unfold insertCourse
  rw [hany]
  rfl

/-- Witness for C5: a second course titled `T` by creator 1 is rejected. -/
theorem course_title_creator_unique_witness :
    insertCourse dbCascade
        { id := none, title := "T", description := some "again", creator_id := 1 }
      = .error "UNIQUE constraint failed: courses" :=
  course_title_creator_unique dbCascade courseA
    { id := none, title := "T", description := some "again", creator_id := 1 }
    (by decide) (by decide) (by decide)

/-- C8: deleting a user removes exactly that user's courses; deleting a
course removes every link row of that course; deleting a video removes
every link row referencing that video while the link rows of unaffected
courses remain. -/
theorem cascade_deletes (db : DB) (uid cid vid : Nat) :
    (∀ c, c ∈ db.courses → c.creator_id = uid → c ∉ (deleteUser db uid).courses)
    ∧ (∀ c, c ∈ db.courses → c.creator_id ≠ uid → c ∈ (deleteUser db uid).courses)
    ∧ (∀ vc, vc ∈ db.videos_courses → vc.course_id = some cid →
          vc ∉ (deleteCourse db cid).videos_courses)
    ∧ (∀ vc, vc ∈ db.videos_courses → vc.video_id = some vid →
          vc ∉ (deleteVideo db vid).videos_courses)
    ∧ (∀ vc, vc ∈ db.videos_courses → vc.video_id ≠ some vid →
          vc ∈ (deleteVideo db vid).videos_courses) := by
  refine ⟨fun c hc hcr => ?_, fun c hc hcr => ?_, fun vc hvc hcid => ?_,
    fun vc hvc hvid => ?_, fun vc hvc hvid => ?_⟩
  · simp [deleteUser, List.mem_filter, hcr]
  · simp [deleteUser, List.mem_filter, hcr, hc]
  · simp [deleteCourse, List.mem_filter, hcid]
  · simp [deleteVideo, List.mem_filter, hvid]
  · simp [deleteVideo, List.mem_filter, hvid, hvc]

/-- Witness for C8 on the concrete two-course database: deleting user 1
removes their course but not user 2's; deleting course 10 removes its link
row; deleting video 100 removes its link row while course 11's link row to
video 200 remains. -/
theorem cascade_deletes_witness :
    courseA ∉ (deleteUser dbCascade 1).courses
    ∧ courseB ∈ (deleteUser dbCascade 1).courses
    ∧ vcRowA ∉ (deleteCourse dbCascade 10).videos_courses
    ∧ vcRowA ∉ (deleteVideo dbCascade 100).videos_courses
    ∧ vcRowB ∈ (deleteVideo dbCascade 100).videos_courses :=
  ⟨(cascade_deletes dbCascade 1 10 100).1 courseA (by decide) (by decide),
   (cascade_deletes dbCascade 1 10 100).2.1 courseB (by decide) (by decide),
   (cascade_deletes dbCascade 1 10 100).2.2.1 vcRowA (by decide) (by decide),
   (cascade_deletes dbCascade 1 10 100).2.2.2.1 vcRowA (by decide) (by decide),
   (cascade_deletes dbCascade 1 10 100).2.2.2.2 vcRowB (by decide) (by decide)⟩

end SuccessWorld
